import Mathlib

/-!
Verification of the face-analysis core (`src/services/faceAnalysis.ts`):
measurement extraction, the face-shape rule cascade, skin-tone
classification, color sampling, and the recommendation engine.

Numbers are modelled as exact rationals (or reals where a square root
occurs).  JavaScript division by zero, which produces `Infinity`/`NaN`
rather than raising, is modelled by the `JSVal` type: the classifier's
ratios are computed with `jsDiv`, and every comparison involving
`NaN` is false, as in JavaScript.
-/

namespace FaceAnalysis

/-- The `measurements` record produced by `calculateMeasurements` and
consumed by `determineFaceShape`. -/
structure Measurements (α : Type) where
  faceWidth : α
  faceHeight : α
  foreheadWidth : α
  jawWidth : α
  chinLength : α
deriving DecidableEq

/-- A JavaScript number that may be `NaN` or an infinity: the possible
results of dividing finite values. -/
inductive JSVal (α : Type) where
  | nan : JSVal α
  | inf : JSVal α
  | ninf : JSVal α
  | fin : α → JSVal α
deriving DecidableEq

variable {α : Type} [LinearOrderedField α]

/-- JavaScript division of finite values: `a / 0` is `Infinity`,
`-Infinity` or `NaN` according to the sign of `a`. -/
def jsDiv [DecidableEq α] [∀ x y : α, Decidable (x < y)] (a b : α) : JSVal α :=
  if b = 0 then
    (if a = 0 then .nan else if 0 < a then .inf else .ninf)
  else .fin (a / b)

/-- JavaScript comparison `v < c`: false whenever `v` is `NaN`. -/
def JSVal.ltP : JSVal α → α → Prop
  | .nan, _ => False
  | .inf, _ => False
  | .ninf, _ => True
  | .fin q, c => q < c

/-- JavaScript comparison `v > c`: false whenever `v` is `NaN`. -/
def JSVal.gtP : JSVal α → α → Prop
  | .nan, _ => False
  | .inf, _ => True
  | .ninf, _ => False
  | .fin q, c => c < q

/-- JavaScript comparison `v >= c`: false whenever `v` is `NaN`. -/
def JSVal.geP : JSVal α → α → Prop
  | .nan, _ => False
  | .inf, _ => True
  | .ninf, _ => False
  | .fin q, c => c ≤ q

/-- JavaScript subtraction `v - c` for finite `c`. -/
def JSVal.sub : JSVal α → α → JSVal α
  | .nan, _ => .nan
  | .inf, _ => .inf
  | .ninf, _ => .ninf
  | .fin q, c => .fin (q - c)

/-- JavaScript `Math.abs v`. -/
def JSVal.abs : JSVal α → JSVal α
  | .nan => .nan
  | .inf => .inf
  | .ninf => .inf
  | .fin q => .fin |q|

instance [∀ x y : α, Decidable (x < y)] (v : JSVal α) (c : α) :
    Decidable (v.ltP c) :=
  match v with
  | .nan => isFalse (fun h => h)
  | .inf => isFalse (fun h => h)
  | .ninf => isTrue trivial
  | .fin q => inferInstanceAs (Decidable (q < c))

instance [∀ x y : α, Decidable (x < y)] (v : JSVal α) (c : α) :
    Decidable (v.gtP c) :=
  match v with
  | .nan => isFalse (fun h => h)
  | .inf => isTrue trivial
  | .ninf => isFalse (fun h => h)
  | .fin q => inferInstanceAs (Decidable (c < q))

instance [∀ x y : α, Decidable (x ≤ y)] (v : JSVal α) (c : α) :
    Decidable (v.geP c) :=
  match v with
  | .nan => isFalse (fun h => h)
  | .inf => isTrue trivial
  | .ninf => isFalse (fun h => h)
  | .fin q => inferInstanceAs (Decidable (c ≤ q))

/-- Translation of `determineFaceShape` from `faceAnalysis.ts`, rule for
rule; the four ratios are computed with JavaScript division semantics. -/
def determineFaceShape [DecidableEq α] [∀ x y : α, Decidable (x < y)]
    [∀ x y : α, Decidable (x ≤ y)] (m : Measurements α) : String :=
  let lengthToWidthRatio := jsDiv m.faceHeight m.faceWidth
  let foreheadToJawRatio := jsDiv m.foreheadWidth m.jawWidth
  let widthToHeightRatio := jsDiv m.faceWidth m.faceHeight
  let chinRatio := jsDiv m.chinLength m.faceHeight
  if lengthToWidthRatio.geP 1.75 then "Oblong"
  else if lengthToWidthRatio.ltP 1.25 ∧ ((foreheadToJawRatio.sub 1).abs.ltP 0.1) then
    "Round"
  else if foreheadToJawRatio.ltP 0.9 then
    (if chinRatio.ltP 0.15 then "Triangle" else "Diamond")
  else if foreheadToJawRatio.gtP 1.1 then
    (if chinRatio.ltP 0.15 then "Heart" else "Inverted Triangle")
  else if widthToHeightRatio.gtP 0.65 ∧ widthToHeightRatio.ltP 0.75 then
    (if (foreheadToJawRatio.sub 1).abs.ltP 0.1 then "Square" else "Oval")
  else "Oval"

/-- The eight face-shape labels of the data model, with the source's
spelling of the inverted-triangle label. -/
def eightShapeLabels : List String :=
  ["Oval", "Round", "Square", "Oblong", "Heart", "Triangle", "Diamond",
    "Inverted Triangle"]

/-- Evaluate an ordered list of `(predicate, label)` rules top to bottom,
returning the first matching label, with the mandatory default `"Oval"`. -/
def firstMatch : List ((Measurements ℚ → Bool) × String) → Measurements ℚ → String
  | [], _ => "Oval"
  | r :: rs, m => if r.1 m then r.2 else firstMatch rs m

/-- The shape cascade as the specification words it (section 4.2): an
explicit ordered rule list over the four ratios, first match wins. -/
def shapeRules : List ((Measurements ℚ → Bool) × String) :=
  [ (fun m => decide (m.faceHeight / m.faceWidth ≥ 1.75), "Oblong"),
    (fun m => decide (m.faceHeight / m.faceWidth < 1.25 ∧
      |m.foreheadWidth / m.jawWidth - 1| < 0.1), "Round"),
    (fun m => decide (m.foreheadWidth / m.jawWidth < 0.9 ∧
      m.chinLength / m.faceHeight < 0.15), "Triangle"),
    (fun m => decide (m.foreheadWidth / m.jawWidth < 0.9), "Diamond"),
    (fun m => decide (m.foreheadWidth / m.jawWidth > 1.1 ∧
      m.chinLength / m.faceHeight < 0.15), "Heart"),
    (fun m => decide (m.foreheadWidth / m.jawWidth > 1.1), "Inverted Triangle"),
    (fun m => decide (0.65 < m.faceWidth / m.faceHeight ∧
      m.faceWidth / m.faceHeight < 0.75 ∧
      |m.foreheadWidth / m.jawWidth - 1| < 0.1), "Square") ]

/-- The specification's six-branch cascade as a pure function. -/
def specShapeCascade (m : Measurements ℚ) : String :=
  firstMatch shapeRules m

/-- Translation of `classifySkinTone` from `faceAnalysis.ts`. -/
def classifySkinTone (r g b : ℚ) : String :=
  let brightness := (r + g + b) / 3
  let warmth := r - b
  if brightness > 200 then "Fair"
  else if brightness > 170 then
    (if warmth > 60 then "Warm Light" else "Cool Light")
  else if brightness > 140 then
    (if warmth > 40 then "Warm Medium" else "Cool Medium")
  else if brightness > 100 then
    (if warmth > 30 then "Warm Deep" else "Cool Deep")
  else "Deep"

/-- Whether `pat` occurs as a contiguous substring of the character list. -/
def containsSubstr (pat : List Char) : List Char → Bool
  | [] => pat.isEmpty
  | c :: rest => pat.isPrefixOf (c :: rest) || containsSubstr pat rest

/-- JavaScript `s.includes(pat)`: substring containment. -/
def jsIncludes (s pat : String) : Bool :=
  containsSubstr pat.data s.data

/-- Translation of `generateRecommendations` from `faceAnalysis.ts`: the shape `switch`
pushes its strings first, then the `skinTone.includes("Warm")` branch
pushes the palette strings. -/
def generateRecommendations (faceShape skinTone : String) : List String :=
  let recommendations : List String := []
  let recommendations := recommendations ++
    (match faceShape with
     | "Oval" =>
       ["Your balanced face shape complements most hairstyles",
        "Try textured layers to enhance your natural harmony",
        "Both long and short styles work well with your proportions"]
     | "Round" =>
       ["Long, layered cuts and side-swept bangs create length",
        "Avoid blunt bobs that accentuate roundness",
        "Try volume at the crown to elongate your face"]
     | "Square" =>
       ["Soft layers and wispy bangs soften angular features",
        "Side-parts and waves balance strong jawline",
        "Avoid blunt cuts that emphasize angles"]
     | "Diamond" =>
       ["Side-swept bangs complement your cheekbones",
        "Chin-length or longer styles balance facial proportions",
        "Add volume at the forehead and jaw areas"]
     | "Heart" =>
       ["Side-swept bangs balance a wider forehead",
        "Medium-length cuts with layers around the chin",
        "Avoid styles with too much height at the crown"]
     | "Triangle" =>
       ["Volume at the crown balances a wider jaw",
        "Long layers with face-framing pieces",
        "Try side-swept bangs and textured ends"]
     | "Oblong" =>
       ["Short to medium-length cuts add width",
        "Side-swept bangs break up length",
        "Avoid very long or sleek styles"]
     | _ => [])
  let recommendations := recommendations ++
    (if jsIncludes skinTone "Warm" then
      ["Gold and copper jewelry enhances your warm undertones",
       "Earth-toned and peachy makeup colors suit your complexion",
       "Try hair colors with golden or copper undertones"]
    else
      ["Silver and platinum jewelry complements your cool undertones",
       "Rose and blue-based makeup colors enhance your complexion",
       "Consider hair colors with ash or cool undertones"])
  recommendations

/-- The shape lookup table on its own: the strings the `switch`
contributes for each shape label (empty for labels without a case). -/
def shapeRecs (faceShape : String) : List String :=
  match faceShape with
  | "Oval" =>
    ["Your balanced face shape complements most hairstyles",
     "Try textured layers to enhance your natural harmony",
     "Both long and short styles work well with your proportions"]
  | "Round" =>
    ["Long, layered cuts and side-swept bangs create length",
     "Avoid blunt bobs that accentuate roundness",
     "Try volume at the crown to elongate your face"]
  | "Square" =>
    ["Soft layers and wispy bangs soften angular features",
     "Side-parts and waves balance strong jawline",
     "Avoid blunt cuts that emphasize angles"]
  | "Diamond" =>
    ["Side-swept bangs complement your cheekbones",
     "Chin-length or longer styles balance facial proportions",
     "Add volume at the forehead and jaw areas"]
  | "Heart" =>
    ["Side-swept bangs balance a wider forehead",
     "Medium-length cuts with layers around the chin",
     "Avoid styles with too much height at the crown"]
  | "Triangle" =>
    ["Volume at the crown balances a wider jaw",
     "Long layers with face-framing pieces",
     "Try side-swept bangs and textured ends"]
  | "Oblong" =>
    ["Short to medium-length cuts add width",
     "Side-swept bangs break up length",
     "Avoid very long or sleek styles"]
  | _ => []

/-- The warm-palette advice strings. -/
def warmPalette : List String :=
  ["Gold and copper jewelry enhances your warm undertones",
   "Earth-toned and peachy makeup colors suit your complexion",
   "Try hair colors with golden or copper undertones"]

/-- The cool-palette advice strings. -/
def coolPalette : List String :=
  ["Silver and platinum jewelry complements your cool undertones",
   "Rose and blue-based makeup colors enhance your complexion",
   "Consider hair colors with ash or cool undertones"]

/-- The tone lookup: selected solely by whether the tone label contains
the substring `"Warm"`. -/
def toneRecs (skinTone : String) : List String :=
  if jsIncludes skinTone "Warm" then warmPalette else coolPalette

/-- The seven shape labels that own a `case` in the recommendation
`switch`. -/
def shapeCaseLabels : List String :=
  ["Oval", "Round", "Square", "Diamond", "Heart", "Triangle", "Oblong"]

/-- A detector keypoint: a named 2-D landmark. -/
structure Keypoint where
  name : String
  x : ℝ
  y : ℝ

/-- A detector bounding box. -/
structure Box where
  width : ℝ
  height : ℝ

/-- Translation of `distance` from `faceAnalysis.ts`: Euclidean distance. -/
noncomputable def distance (point1 point2 : ℝ × ℝ) : ℝ :=
  Real.sqrt ((point2.1 - point1.1) ^ 2 + (point2.2 - point1.2) ^ 2)

/-- Translation of `calculateMeasurements` from `faceAnalysis.ts`: the five measurements
plus the keypoint-count confidence. -/
noncomputable def calculateMeasurements (box : Box) (keypoints : List Keypoint) :
    Measurements ℝ × ℝ :=
  let leftEye := keypoints.find? (fun k => k.name == "leftEye")
  let rightEye := keypoints.find? (fun k => k.name == "rightEye")
  let nose := keypoints.find? (fun k => k.name == "noseTip")
  let mouth := keypoints.find? (fun k => k.name == "mouth")
  let leftCheek := keypoints.find? (fun k => k.name == "leftCheek")
  let rightCheek := keypoints.find? (fun k => k.name == "rightCheek")
  let faceWidth := box.width
  let faceHeight := box.height
  let eyeDistance :=
    match leftEye, rightEye with
    | some l, some r => distance (l.x, l.y) (r.x, r.y)
    | _, _ => faceWidth * 0.4
  let foreheadWidth := eyeDistance * 1.3
  let jawWidth :=
    match leftCheek, rightCheek with
    | some lc, some rc => distance (lc.x, lc.y) (rc.x, rc.y) * 0.9
    | _, _ => faceWidth * 0.85
  let chinLength :=
    match nose, mouth with
    | some n, some mo => distance (n.x, n.y) (mo.x, mo.y) * 1.5
    | _, _ => faceHeight * 0.2
  let keyPointsFound :=
    ([leftEye, rightEye, nose, mouth, leftCheek, rightCheek].filter
      (fun point => point.isSome)).length
  let confidence := (keyPointsFound : ℝ) / 6
  (⟨faceWidth, faceHeight, foreheadWidth, jawWidth, chinLength⟩, confidence)

/-- An averaged color sample. -/
structure RGB where
  r : ℕ
  g : ℕ
  b : ℕ

/-- An image together with its pixel surface; `readable` is false when no
2-D context / pixel data can be obtained from it. -/
structure PixelImage where
  width : ℕ
  height : ℕ
  readable : Bool
  pixel : ℕ → ℕ → RGB

/-- Modelled from the spec: the pixel-buffer collaborator `samplePixels`
(sections 4.3, 6 and 7), which is external to the repository.  It returns
the `w`-by-`h` window with corner `(x, y)` in row-major order and fails
when the window falls outside the image bounds. -/
def samplePixels (img : PixelImage) (x y : ℤ) (w h : ℕ) :
    Except String (List RGB) :=
  if x < 0 ∨ y < 0 ∨ (img.width : ℤ) < x + w ∨ (img.height : ℤ) < y + h then
    .error "window out of bounds"
  else
    .ok ((List.range h).flatMap fun j =>
      (List.range w).map fun i => img.pixel (x.toNat + i) (y.toNat + j))

/-- JavaScript `Math.round`: round half away from zero toward positive
infinity. -/
def jsRound (q : ℚ) : ℤ := ⌊q + 1 / 2⌋

/-- Translation of `analyzeSkinTone` from `faceAnalysis.ts`: the context-null throw, the
50-by-50 center window, channel averaging with rounding, then
classification.  Pixel access goes through the spec-modelled
`samplePixels` collaborator. -/
def analyzeSkinTone (img : PixelImage) : Except String String :=
  if img.readable = false then .error "Could not get canvas context"
  else
    let centerX := img.width / 2
    let centerY := img.height / 2
    let sampleSize : ℕ := 50
    match samplePixels img ((centerX : ℤ) - sampleSize / 2)
        ((centerY : ℤ) - sampleSize / 2) sampleSize sampleSize with
    | .error e => .error e
    | .ok data =>
      let pixelCount := data.length
      let r := jsRound (((data.map fun p => p.r).sum : ℚ) / pixelCount)
      let g := jsRound (((data.map fun p => p.g).sum : ℚ) / pixelCount)
      let b := jsRound (((data.map fun p => p.b).sum : ℚ) / pixelCount)
      .ok (classifySkinTone (r : ℚ) (g : ℚ) (b : ℚ))

/-! ### Helper lemmas -/

theorem jsDiv_of_pos {β : Type} [LinearOrderedField β] [DecidableEq β]
    [∀ x y : β, Decidable (x < y)] (a : β) {b : β} (hb : 0 < b) :
    jsDiv a b = .fin (a / b) := by
  rw [jsDiv, if_neg hb.ne']

set_option maxHeartbeats 1600000 in
theorem determineFaceShape_eq_cascade_of_pos (m : Measurements ℚ)
    (hW : 0 < m.faceWidth) (hH : 0 < m.faceHeight) (hJ : 0 < m.jawWidth) :
    determineFaceShape m = specShapeCascade m := by
  simp only [determineFaceShape, specShapeCascade, shapeRules, firstMatch,
    jsDiv_of_pos _ hW, jsDiv_of_pos _ hJ, jsDiv_of_pos _ hH,
    JSVal.geP, JSVal.ltP, JSVal.gtP, JSVal.sub, JSVal.abs,
    decide_eq_true_eq, ge_iff_le]
  split_ifs <;> first | rfl | tauto

set_option maxHeartbeats 1600000 in
theorem determineFaceShape_mem_labels (m : Measurements ℚ) :
    determineFaceShape m ∈ eightShapeLabels := by
  simp only [determineFaceShape]
  split_ifs <;> simp [eightShapeLabels]

theorem specShapeCascade_square_iff (m : Measurements ℚ)
    (hW : 0 < m.faceWidth) (hH : 0 < m.faceHeight) :
    (specShapeCascade m = "Square" ↔
      |m.foreheadWidth / m.jawWidth - 1| < 0.1 ∧
        0.65 < m.faceWidth / m.faceHeight ∧
        m.faceWidth / m.faceHeight < 0.75) := by
  simp only [specShapeCascade, shapeRules, firstMatch, decide_eq_true_eq,
    ge_iff_le]
  constructor
  · intro h
    split_ifs at h with h1 h2 h3 h4 h5 h6 h7
    · exact absurd h (by decide)
    · exact absurd h (by decide)
    · exact absurd h (by decide)
    · exact absurd h (by decide)
    · exact absurd h (by decide)
    · exact absurd h (by decide)
    · exact ⟨h7.2.2, h7.1, h7.2.1⟩
    · exact absurd h (by decide)
  · rintro ⟨habs, hx1, hx2⟩
    have hfj := abs_lt.mp habs
    have hr1 : m.faceHeight / m.faceWidth < 20 / 13 := by
      rw [lt_div_iff hH] at hx1
      rw [div_lt_iff hW]
      linarith
    have hr2 : 4 / 3 < m.faceHeight / m.faceWidth := by
      rw [div_lt_iff hH] at hx2
      rw [lt_div_iff hW]
      linarith
    have n1 : ¬(1.75 ≤ m.faceHeight / m.faceWidth) := by
      intro hc; linarith
    have n2 : ¬(m.faceHeight / m.faceWidth < 1.25 ∧
        |m.foreheadWidth / m.jawWidth - 1| < 0.1) := by
      rintro ⟨hc, -⟩; linarith
    have n3 : ¬(m.foreheadWidth / m.jawWidth < 0.9 ∧
        m.chinLength / m.faceHeight < 0.15) := by
      rintro ⟨hc, -⟩; linarith
    have n4 : ¬(m.foreheadWidth / m.jawWidth < 0.9) := by
      intro hc; linarith
    have n5 : ¬(m.foreheadWidth / m.jawWidth > 1.1 ∧
        m.chinLength / m.faceHeight < 0.15) := by
      rintro ⟨hc, -⟩; linarith
    have n6 : ¬(m.foreheadWidth / m.jawWidth > 1.1) := by
      intro hc; linarith
    rw [if_neg n1, if_neg n2, if_neg n3, if_neg n4, if_neg n5, if_neg n6,
      if_pos ⟨hx1, hx2, habs⟩]

/-! ### Claim theorems -/

/-- C1: for every input with strictly positive finite `faceWidth`,
`faceHeight`, `jawWidth` and `foreheadWidth`, `determineFaceShape`
evaluates exactly the specification's six-rule ordered first-match-wins
cascade and returns exactly one of the eight labels. -/
theorem determineFaceShape_cascade_c1 (m : Measurements ℚ)
    (hW : 0 < m.faceWidth) (hH : 0 < m.faceHeight) (hJ : 0 < m.jawWidth)
    (hF : 0 < m.foreheadWidth) :
    determineFaceShape m = specShapeCascade m ∧
      determineFaceShape m ∈ eightShapeLabels :=
  ⟨determineFaceShape_eq_cascade_of_pos m hW hH hJ,
    determineFaceShape_mem_labels m⟩

/-- Witness for C1 at a concrete positive measurement record. -/
theorem determineFaceShape_cascade_c1_witness :
    determineFaceShape (α := ℚ) ⟨100, 180, 100, 100, 20⟩ =
        specShapeCascade ⟨100, 180, 100, 100, 20⟩ ∧
      determineFaceShape (α := ℚ) ⟨100, 180, 100, 100, 20⟩ ∈
        eightShapeLabels :=
  determineFaceShape_cascade_c1 ⟨100, 180, 100, 100, 20⟩
    (by norm_num) (by norm_num) (by norm_num) (by norm_num)

/-- C9: for positive measurements, `determineFaceShape` returns `"Square"`
exactly when the forehead-to-jaw ratio is within 0.1 of 1 and the
width-to-height ratio lies strictly between 0.65 and 0.75; those bounds
force the height-to-width ratio strictly between 4/3 and 20/13, and the
chin length plays no role in the decision. -/
theorem determineFaceShape_square_c9 (m : Measurements ℚ)
    (hW : 0 < m.faceWidth) (hH : 0 < m.faceHeight) (hJ : 0 < m.jawWidth)
    (hF : 0 < m.foreheadWidth) :
    (determineFaceShape m = "Square" ↔
      |m.foreheadWidth / m.jawWidth - 1| < 0.1 ∧
        0.65 < m.faceWidth / m.faceHeight ∧
        m.faceWidth / m.faceHeight < 0.75) ∧
    (0.65 < m.faceWidth / m.faceHeight → m.faceWidth / m.faceHeight < 0.75 →
      4 / 3 < m.faceHeight / m.faceWidth ∧
        m.faceHeight / m.faceWidth < 20 / 13) ∧
    (∀ c : ℚ, determineFaceShape { m with chinLength := c } = "Square" ↔
      determineFaceShape m = "Square") := by
  have key : ∀ m' : Measurements ℚ, 0 < m'.faceWidth → 0 < m'.faceHeight →
      0 < m'.jawWidth → (determineFaceShape m' = "Square" ↔
        |m'.foreheadWidth / m'.jawWidth - 1| < 0.1 ∧
          0.65 < m'.faceWidth / m'.faceHeight ∧
          m'.faceWidth / m'.faceHeight < 0.75) := by
    intro m' hW' hH' hJ'
    rw [determineFaceShape_eq_cascade_of_pos m' hW' hH' hJ']
    exact specShapeCascade_square_iff m' hW' hH'
  refine ⟨key m hW hH hJ, ?_, ?_⟩
  · intro hx1 hx2
    constructor
    · rw [div_lt_iff hH] at hx2
      rw [lt_div_iff hW]
      linarith
    · rw [lt_div_iff hH] at hx1
      rw [div_lt_iff hW]
      linarith
  · intro c
    exact (key { m with chinLength := c } hW hH hJ).trans (key m hW hH hJ).symm

/-- Witness for C9: a concrete record that the cascade labels `"Square"`. -/
theorem determineFaceShape_square_c9_witness :
    determineFaceShape (α := ℚ) ⟨70, 100, 95, 100, 20⟩ = "Square" :=
  ((determineFaceShape_square_c9 ⟨70, 100, 95, 100, 20⟩
    (by norm_num) (by norm_num) (by norm_num) (by norm_num)).1).mpr
    ⟨by rw [abs_lt]; constructor <;> norm_num, by norm_num, by norm_num⟩

/-- C4: every brightness bracket of `classifySkinTone` has a strict lower
bound, so a brightness exactly equal to a threshold falls into the next
darker bracket; brightness exactly 200 yields the warm/cool light bracket
rather than `"Fair"`, and brightness at most 100 yields `"Deep"`. -/
theorem classifySkinTone_boundaries_c4 (r g b : ℚ) :
    ((r + g + b) / 3 = 200 → classifySkinTone r g b =
      if r - b > 60 then "Warm Light" else "Cool Light") ∧
    ((r + g + b) / 3 = 170 → classifySkinTone r g b =
      if r - b > 40 then "Warm Medium" else "Cool Medium") ∧
    ((r + g + b) / 3 = 140 → classifySkinTone r g b =
      if r - b > 30 then "Warm Deep" else "Cool Deep") ∧
    ((r + g + b) / 3 ≤ 100 → classifySkinTone r g b = "Deep") ∧
    ((r + g + b) / 3 = 200 → classifySkinTone r g b ≠ "Fair") := by
  refine ⟨?_, ?_, ?_, ?_, ?_⟩ <;> intro h <;>
    simp only [classifySkinTone] <;> split_ifs <;>
    first | rfl | decide | linarith

/-- Witness for C4: pure gray at brightness exactly 200 is classified
`"Cool Light"`, not `"Fair"`. -/
theorem classifySkinTone_boundaries_c4_witness :
    classifySkinTone 200 200 200 = "Cool Light" := by
  have h := (classifySkinTone_boundaries_c4 200 200 200).1 (by norm_num)
  rw [h, if_neg (by norm_num)]

/-- C3 counterexample: for a zero-width box the extractor produces the
degenerate measurements and the classifier, far from raising any
`DegenerateMeasurementError`, follows the infinite height-to-width ratio
into rule 1 and returns `"Oblong"`. -/
theorem degenerate_zero_width_c3_counterexample :
    determineFaceShape (calculateMeasurements ⟨0, 200⟩ []).1 = "Oblong" := by
  have h1 : (calculateMeasurements ⟨0, 200⟩ []).1 =
      ⟨0, 200, 0, 0, 40⟩ := by
    simp only [calculateMeasurements, List.find?]
    norm_num
  rw [h1]
  have h2 : jsDiv (α := ℝ) (200 : ℝ) 0 = .inf := by
    rw [jsDiv, if_pos rfl, if_neg (by norm_num), if_pos (by norm_num)]
  simp only [determineFaceShape, h2, JSVal.geP, if_true]

/-- C3 amended: the classifier is total (no error path exists at all):
every measurement record, degenerate ones included, is mapped to one of
the eight labels, and a zero `faceWidth` with positive `faceHeight` is
mapped to `"Oblong"` through the infinite ratio. -/
theorem determineFaceShape_total_c3 (m : Measurements ℚ) :
    determineFaceShape m ∈ eightShapeLabels ∧
      (m.faceWidth = 0 → 0 < m.faceHeight → determineFaceShape m = "Oblong") := by
  refine ⟨determineFaceShape_mem_labels m, fun h0 hpos => ?_⟩
  have h2 : jsDiv m.faceHeight m.faceWidth = .inf := by
    rw [h0, jsDiv, if_pos rfl, if_neg hpos.ne', if_pos hpos]
  simp only [determineFaceShape, h2, JSVal.geP, if_true]

/-- Witness for C3's amended theorem at the zero-width measurements. -/
theorem determineFaceShape_total_c3_witness :
    determineFaceShape (α := ℚ) ⟨0, 200, 0, 0, 40⟩ ∈ eightShapeLabels ∧
      determineFaceShape (α := ℚ) ⟨0, 200, 0, 0, 40⟩ = "Oblong" := by
  have h := determineFaceShape_total_c3 ⟨0, 200, 0, 0, 40⟩
  exact ⟨h.1, h.2 rfl (by norm_num)⟩


theorem generateRecommendations_eq (faceShape skinTone : String) :
    generateRecommendations faceShape skinTone =
      shapeRecs faceShape ++ toneRecs skinTone := by
  unfold generateRecommendations shapeRecs toneRecs warmPalette coolPalette
  simp only [List.nil_append]

theorem shapeRecs_length (faceShape : String) :
    (shapeRecs faceShape).length =
      if faceShape ∈ shapeCaseLabels then 3 else 0 := by
  unfold shapeRecs shapeCaseLabels
  split <;> simp_all

theorem toneRecs_length (skinTone : String) : (toneRecs skinTone).length = 3 := by
  unfold toneRecs warmPalette coolPalette
  split <;> rfl


/-- C6: for every shape and tone label the engine returns a non-empty
list; the leading segment (the first `(shapeRecs shape).length` entries)
is the same for any two tones, and the trailing segment agrees whenever
the two tone labels agree on containing the substring `"Warm"`. -/
theorem generateRecommendations_segments_c6 (shape tone tone' : String) :
    generateRecommendations shape tone ≠ [] ∧
    (generateRecommendations shape tone).take (shapeRecs shape).length =
      (generateRecommendations shape tone').take (shapeRecs shape).length ∧
    (jsIncludes tone "Warm" = jsIncludes tone' "Warm" →
      (generateRecommendations shape tone).drop (shapeRecs shape).length =
        (generateRecommendations shape tone').drop (shapeRecs shape).length) := by
  refine ⟨?_, ?_, ?_⟩
  · intro h
    have hl := congrArg List.length h
    rw [generateRecommendations_eq, List.length_append, toneRecs_length,
      List.length_nil] at hl
    omega
  · rw [generateRecommendations_eq shape tone,
      generateRecommendations_eq shape tone', List.take_left, List.take_left]
  · intro h
    rw [generateRecommendations_eq shape tone,
      generateRecommendations_eq shape tone', List.drop_left, List.drop_left]
    unfold toneRecs
    rw [h]

/-- Witness for C6 with the `"Fair"`/`"Deep"` tones, which agree on not
containing `"Warm"`. -/
theorem generateRecommendations_segments_c6_witness :
    generateRecommendations "Oval" "Fair" ≠ [] ∧
    (generateRecommendations "Oval" "Fair").drop (shapeRecs "Oval").length =
      (generateRecommendations "Oval" "Deep").drop (shapeRecs "Oval").length :=
  ⟨(generateRecommendations_segments_c6 "Oval" "Fair" "Deep").1,
    (generateRecommendations_segments_c6 "Oval" "Fair" "Deep").2.2 rfl⟩

/-- C5 counterexample: the shape `switch` has no case for
`"Inverted Triangle"`, so that label contributes no strings and the
output is the bare cool-palette advice — the lookup does not have one
entry for every one of the eight labels. -/
theorem invertedTriangle_missing_c5_counterexample :
    generateRecommendations "Inverted Triangle" "Fair" =
      ["Silver and platinum jewelry complements your cool undertones",
       "Rose and blue-based makeup colors enhance your complexion",
       "Consider hair colors with ash or cool undertones"] := rfl

/-- C5 amended: the shape lookup has an entry for each of the seven
labels with a `switch` case, each contributing exactly 3 strings;
`"Inverted Triangle"` has no entry and contributes none; the tone lookup
is selected by whether the tone label contains `"Warm"`, with `"Fair"`
and `"Deep"` falling under the cool branch. -/
theorem generateRecommendations_tables_c5 (shape tone : String)
    (h : shape ∈ shapeCaseLabels) :
    generateRecommendations shape tone = shapeRecs shape ++ toneRecs tone ∧
    (shapeRecs shape).length = 3 ∧
    shapeRecs "Inverted Triangle" = [] ∧
    toneRecs tone =
      (if jsIncludes tone "Warm" then warmPalette else coolPalette) ∧
    jsIncludes "Fair" "Warm" = false ∧
    jsIncludes "Deep" "Warm" = false := by
  refine ⟨generateRecommendations_eq shape tone, ?_, rfl, rfl, rfl, rfl⟩
  rw [shapeRecs_length, if_pos h]

/-- Witness for C5's amended theorem at the `"Oval"`/`"Fair"` pair. -/
theorem generateRecommendations_tables_c5_witness :
    generateRecommendations "Oval" "Fair" =
      shapeRecs "Oval" ++ toneRecs "Fair" ∧
    (shapeRecs "Oval").length = 3 := by
  have h := generateRecommendations_tables_c5 "Oval" "Fair" (by decide)
  exact ⟨h.1, h.2.1⟩

/-- C10: the recommendation list has exactly 6 entries for the seven
labels owning a `switch` case and exactly 3 entries for
`"Inverted Triangle"` or any other label, hence it is never empty. -/
theorem generateRecommendations_length_c10 (shape tone : String) :
    (generateRecommendations shape tone).length =
      (if shape ∈ shapeCaseLabels then 6 else 3) ∧
    (generateRecommendations "Inverted Triangle" tone).length = 3 ∧
    generateRecommendations shape tone ≠ [] := by
  have hlen : (generateRecommendations shape tone).length =
      (if shape ∈ shapeCaseLabels then 6 else 3) := by
    rw [generateRecommendations_eq, List.length_append, shapeRecs_length,
      toneRecs_length]
    split_ifs <;> rfl
  refine ⟨hlen, ?_, ?_⟩
  · rw [generateRecommendations_eq, List.length_append, shapeRecs_length,
      if_neg (by decide), toneRecs_length]
  · intro h
    have hl := congrArg List.length h
    rw [hlen, List.length_nil] at hl
    split_ifs at hl

/-- Witness for C10 at the caseless `"Inverted Triangle"` label. -/
theorem generateRecommendations_length_c10_witness :
    (generateRecommendations "Inverted Triangle" "Fair").length = 3 :=
  (generateRecommendations_length_c10 "Inverted Triangle" "Fair").2.1


theorem filter_isSome_length_eq (o1 o2 o3 o4 o5 o6 : Option Keypoint) :
    ((([o1, o2, o3, o4, o5, o6].filter (fun point => point.isSome)).length : ℝ)) =
      (if o1.isSome then (1 : ℝ) else 0) + (if o2.isSome then 1 else 0) +
      (if o3.isSome then 1 else 0) + (if o4.isSome then 1 else 0) +
      (if o5.isSome then 1 else 0) + (if o6.isSome then 1 else 0) := by
  cases o1 <;> cases o2 <;> cases o3 <;> cases o4 <;> cases o5 <;> cases o6 <;>
    norm_num [List.filter]

/-- C2: `calculateMeasurements` is total on keypoint lists, follows the
stated formulas in both the present and the fallback cases for each of
`foreheadWidth`, `jawWidth` and `chinLength`, and its confidence is the
fraction of the six named keypoints found, equal to 1 when all six are
present. -/
theorem calculateMeasurements_spec_c2 (box : Box) (kps : List Keypoint) :
    (calculateMeasurements box kps).1.faceWidth = box.width ∧
    (calculateMeasurements box kps).1.faceHeight = box.height ∧
    (∀ l r, kps.find? (fun k => k.name == "leftEye") = some l →
      kps.find? (fun k => k.name == "rightEye") = some r →
      (calculateMeasurements box kps).1.foreheadWidth =
        distance (l.x, l.y) (r.x, r.y) * 1.3) ∧
    (kps.find? (fun k => k.name == "leftEye") = none ∨
      kps.find? (fun k => k.name == "rightEye") = none →
      (calculateMeasurements box kps).1.foreheadWidth =
        box.width * 0.4 * 1.3) ∧
    (∀ lc rc, kps.find? (fun k => k.name == "leftCheek") = some lc →
      kps.find? (fun k => k.name == "rightCheek") = some rc →
      (calculateMeasurements box kps).1.jawWidth =
        distance (lc.x, lc.y) (rc.x, rc.y) * 0.9) ∧
    (kps.find? (fun k => k.name == "leftCheek") = none ∨
      kps.find? (fun k => k.name == "rightCheek") = none →
      (calculateMeasurements box kps).1.jawWidth = box.width * 0.85) ∧
    (∀ n mo, kps.find? (fun k => k.name == "noseTip") = some n →
      kps.find? (fun k => k.name == "mouth") = some mo →
      (calculateMeasurements box kps).1.chinLength =
        distance (n.x, n.y) (mo.x, mo.y) * 1.5) ∧
    (kps.find? (fun k => k.name == "noseTip") = none ∨
      kps.find? (fun k => k.name == "mouth") = none →
      (calculateMeasurements box kps).1.chinLength = box.height * 0.2) ∧
    ((calculateMeasurements box kps).2 =
      ((if (kps.find? (fun k => k.name == "leftEye")).isSome then (1 : ℝ) else 0) +
        (if (kps.find? (fun k => k.name == "rightEye")).isSome then 1 else 0) +
        (if (kps.find? (fun k => k.name == "noseTip")).isSome then 1 else 0) +
        (if (kps.find? (fun k => k.name == "mouth")).isSome then 1 else 0) +
        (if (kps.find? (fun k => k.name == "leftCheek")).isSome then 1 else 0) +
        (if (kps.find? (fun k => k.name == "rightCheek")).isSome then 1 else 0)) / 6) ∧
    ((kps.find? (fun k => k.name == "leftEye")).isSome = true →
      (kps.find? (fun k => k.name == "rightEye")).isSome = true →
      (kps.find? (fun k => k.name == "noseTip")).isSome = true →
      (kps.find? (fun k => k.name == "mouth")).isSome = true →
      (kps.find? (fun k => k.name == "leftCheek")).isSome = true →
      (kps.find? (fun k => k.name == "rightCheek")).isSome = true →
      (calculateMeasurements box kps).2 = 1) := by
  refine ⟨rfl, rfl, ?_, ?_, ?_, ?_, ?_, ?_, ?_, ?_⟩
  · intro l r hl hr
    simp only [calculateMeasurements, hl, hr]
  · intro h
    rcases h with h | h
    · cases hr : kps.find? (fun k => k.name == "rightEye") <;>
        simp only [calculateMeasurements, h, hr]
    · cases hl : kps.find? (fun k => k.name == "leftEye") <;>
        simp only [calculateMeasurements, h, hl]
  · intro lc rc hl hr
    simp only [calculateMeasurements, hl, hr]
  · intro h
    rcases h with h | h
    · cases hr : kps.find? (fun k => k.name == "rightCheek") <;>
        simp only [calculateMeasurements, h, hr]
    · cases hl : kps.find? (fun k => k.name == "leftCheek") <;>
        simp only [calculateMeasurements, h, hl]
  · intro n mo hn hm
    simp only [calculateMeasurements, hn, hm]
  · intro h
    rcases h with h | h
    · cases hm : kps.find? (fun k => k.name == "mouth") <;>
        simp only [calculateMeasurements, h, hm]
    · cases hn : kps.find? (fun k => k.name == "noseTip") <;>
        simp only [calculateMeasurements, h, hn]
  · show (_ : ℝ) / 6 = _
    rw [filter_isSome_length_eq]
  · intro h1 h2 h3 h4 h5 h6
    obtain ⟨l, hl⟩ := Option.isSome_iff_exists.mp h1
    obtain ⟨r, hr⟩ := Option.isSome_iff_exists.mp h2
    obtain ⟨n, hn⟩ := Option.isSome_iff_exists.mp h3
    obtain ⟨mo, hm⟩ := Option.isSome_iff_exists.mp h4
    obtain ⟨lc, hlc⟩ := Option.isSome_iff_exists.mp h5
    obtain ⟨rc, hrc⟩ := Option.isSome_iff_exists.mp h6
    simp only [calculateMeasurements, hl, hr, hn, hm, hlc, hrc]
    norm_num [List.filter]


/-- Witness for C2: with all six named keypoints present the confidence
is exactly 1. -/
theorem calculateMeasurements_spec_c2_witness :
    (calculateMeasurements ⟨200, 220⟩
      [⟨"leftEye", 80, 100⟩, ⟨"rightEye", 120, 100⟩, ⟨"noseTip", 100, 120⟩,
        ⟨"mouth", 100, 150⟩, ⟨"leftCheek", 60, 130⟩,
        ⟨"rightCheek", 140, 130⟩]).2 = 1 :=
  (calculateMeasurements_spec_c2 ⟨200, 220⟩
    [⟨"leftEye", 80, 100⟩, ⟨"rightEye", 120, 100⟩, ⟨"noseTip", 100, 120⟩,
      ⟨"mouth", 100, 150⟩, ⟨"leftCheek", 60, 130⟩,
      ⟨"rightCheek", 140, 130⟩]).2.2.2.2.2.2.2.2.2
    rfl rfl rfl rfl rfl rfl


/-- C7: for a 200-by-200 box with only the two eyes present, the
extractor returns exactly the example's measurements (eye distance 40,
forehead 52, jaw 170, chin 40, confidence 2/6) and the classifier labels
them `"Diamond"` through rule 3 with `chinRatio = 0.2 >= 0.15`. -/
theorem pipeline_example_c7 :
    distance (80, 100) (120, 100) = 40 ∧
    (calculateMeasurements ⟨200, 200⟩
      [⟨"leftEye", 80, 100⟩, ⟨"rightEye", 120, 100⟩]).1 =
        ⟨200, 200, 52, 170, 40⟩ ∧
    (calculateMeasurements ⟨200, 200⟩
      [⟨"leftEye", 80, 100⟩, ⟨"rightEye", 120, 100⟩]).2 = 1 / 3 ∧
    determineFaceShape
      (calculateMeasurements ⟨200, 200⟩
        [⟨"leftEye", 80, 100⟩, ⟨"rightEye", 120, 100⟩]).1 = "Diamond" ∧
    (200 : ℝ) / 200 = 1 ∧
    (0.3 < (52 : ℝ) / 170 ∧ (52 : ℝ) / 170 < 0.31) ∧
    ¬((40 : ℝ) / 200 < 0.15) := by
  have hd : distance (80, 100) (120, 100) = 40 := by
    have h40 : ((120 : ℝ) - 80) ^ 2 + ((100 : ℝ) - 100) ^ 2 = 40 ^ 2 := by
      norm_num
    rw [distance]
    simp only []
    rw [h40, Real.sqrt_sq (by norm_num : (0 : ℝ) ≤ 40)]
  have hfl : (([⟨"leftEye", 80, 100⟩, ⟨"rightEye", 120, 100⟩] :
      List Keypoint).find? (fun k => k.name == "leftEye")) =
        some ⟨"leftEye", 80, 100⟩ := rfl
  have hfr : (([⟨"leftEye", 80, 100⟩, ⟨"rightEye", 120, 100⟩] :
      List Keypoint).find? (fun k => k.name == "rightEye")) =
        some ⟨"rightEye", 120, 100⟩ := rfl
  have hfn : (([⟨"leftEye", 80, 100⟩, ⟨"rightEye", 120, 100⟩] :
      List Keypoint).find? (fun k => k.name == "noseTip")) = none := rfl
  have hfm : (([⟨"leftEye", 80, 100⟩, ⟨"rightEye", 120, 100⟩] :
      List Keypoint).find? (fun k => k.name == "mouth")) = none := rfl
  have hflc : (([⟨"leftEye", 80, 100⟩, ⟨"rightEye", 120, 100⟩] :
      List Keypoint).find? (fun k => k.name == "leftCheek")) = none := rfl
  have hfrc : (([⟨"leftEye", 80, 100⟩, ⟨"rightEye", 120, 100⟩] :
      List Keypoint).find? (fun k => k.name == "rightCheek")) = none := rfl
  have hm : (calculateMeasurements ⟨200, 200⟩
      [⟨"leftEye", 80, 100⟩, ⟨"rightEye", 120, 100⟩]).1 =
        ⟨200, 200, 52, 170, 40⟩ := by
    simp only [calculateMeasurements, hfl, hfr, hfn, hfm, hflc, hfrc]
    rw [Measurements.mk.injEq]
    norm_num [hd]
  have hconf : (calculateMeasurements ⟨200, 200⟩
      [⟨"leftEye", 80, 100⟩, ⟨"rightEye", 120, 100⟩]).2 = 1 / 3 := by
    simp only [calculateMeasurements, hfl, hfr, hfn, hfm, hflc, hfrc]
    norm_num [List.filter]
  refine ⟨hd, hm, hconf, ?_, by norm_num, ⟨by norm_num, by norm_num⟩,
    by norm_num⟩
  rw [hm]
  have e1 : jsDiv (α := ℝ) 200 200 = .fin (200 / 200) :=
    jsDiv_of_pos _ (by norm_num)
  have e2 : jsDiv (α := ℝ) 52 170 = .fin (52 / 170) :=
    jsDiv_of_pos _ (by norm_num)
  have e3 : jsDiv (α := ℝ) 40 200 = .fin (40 / 200) :=
    jsDiv_of_pos _ (by norm_num)
  simp only [determineFaceShape, e1, e2, e3, JSVal.geP, JSVal.ltP, JSVal.gtP,
    JSVal.sub, JSVal.abs]
  rw [if_neg (by norm_num), if_neg (by rw [abs_lt]; norm_num),
    if_pos (by norm_num : (52 : ℝ) / 170 < 0.9), if_neg (by norm_num)]


/-- C8: the color sampler fails with an error whenever the pixel surface
is unreadable or the 50-by-50 window centered at half the dimensions
(corner at center minus 25) exceeds the image bounds — in particular for
any width or height below 50 — and a successful sample can only come
from a readable image at least 50 pixels in each dimension. -/
theorem analyzeSkinTone_bounds_c8 (img : PixelImage) :
    (img.readable = false ∨ img.width < 50 ∨ img.height < 50 →
      ∃ e, analyzeSkinTone img = Except.error e) ∧
    (∀ s, analyzeSkinTone img = Except.ok s →
      img.readable = true ∧ 50 ≤ img.width ∧ 50 ≤ img.height) := by
  have herr : img.readable = false ∨ img.width < 50 ∨ img.height < 50 →
      ∃ e, analyzeSkinTone img = Except.error e := by
    intro h
    by_cases hr : img.readable = true
    · have hwh : img.width < 50 ∨ img.height < 50 := by
        rcases h with h | h | h
        · rw [h] at hr; exact absurd hr (by simp)
        · exact Or.inl h
        · exact Or.inr h
      refine ⟨"window out of bounds", ?_⟩
      rw [analyzeSkinTone, if_neg (by simp [hr])]
      have hsp : samplePixels img ((img.width / 2 : ℕ) - (50 : ℕ) / 2)
          ((img.height / 2 : ℕ) - (50 : ℕ) / 2) 50 50 =
            Except.error "window out of bounds" := by
        rw [samplePixels, if_pos ?_]
        omega
      simp only [hsp]
    · have hr' : img.readable = false := by
        revert hr; cases img.readable <;> simp
      exact ⟨"Could not get canvas context", by rw [analyzeSkinTone, if_pos hr']⟩
  refine ⟨herr, fun s hs => ?_⟩
  have h1 : img.readable = true := by
    by_contra h
    have hf : img.readable = false := by
      revert h; cases img.readable <;> simp
    obtain ⟨e, he⟩ := herr (Or.inl hf)
    exact Except.noConfusion (he.symm.trans hs)
  have h2 : 50 ≤ img.width := by
    by_contra h
    obtain ⟨e, he⟩ := herr (Or.inr (Or.inl (by omega)))
    exact Except.noConfusion (he.symm.trans hs)
  have h3 : 50 ≤ img.height := by
    by_contra h
    obtain ⟨e, he⟩ := herr (Or.inr (Or.inr (by omega)))
    exact Except.noConfusion (he.symm.trans hs)
  exact ⟨h1, h2, h3⟩

/-- Witness for C8: a readable 30-by-60 image is rejected. -/
theorem analyzeSkinTone_bounds_c8_witness :
    ∃ e, analyzeSkinTone ⟨30, 60, true, fun i j => ⟨0, 0, 0⟩⟩ =
      Except.error e :=
  (analyzeSkinTone_bounds_c8 ⟨30, 60, true, fun i j => ⟨0, 0, 0⟩⟩).1
    (Or.inr (Or.inl (by decide)))

end FaceAnalysis
